import Mathlib

/-!
Shallow embedding of `src/planetPosition.js` (Keplerian planet positions,
after E. M. Standish's JPL approximation).  The JavaScript source computes
with IEEE doubles through the `Math` library; we model the numbers by a
linear ordered field and pass the transcendental functions (`Math.sin`,
`Math.cos`, `Math.sqrt`, `Math.PI`) as an explicit record, so that the
very same definitions can be instantiated with the exact real functions
(for the analytic claims) and with computable rational stand-ins (for
executable structural checks).
-/

/-- Record of the `Math` library functions the source uses. -/
structure MathLib (F : Type) where
  sin : F → F
  cos : F → F
  sqrt : F → F
  pi : F

variable {F : Type} [LinearOrderedField F]

/-- Source: `let deg2rad = Math.PI/180` (lines 11, 76, 92). -/
def deg2rad (L : MathLib F) : F := L.pi / 180

/-- Source lines 102-103 of `solveKeplerEquation`: the Newton correction
`dE` computed from the current iterate `E1`:
`dM = M - (E1 - e1*Math.sin(deg2rad*E1))`, `dE = dM/(1-e*Math.cos(deg2rad*E1))`. -/
def keplerCorrection (L : MathLib F) (M e e1 E1 : F) : F :=
  (M - (E1 - e1 * L.sin (deg2rad L * E1))) / (1 - e * L.cos (deg2rad L * E1))

/-- Source lines 101-106: the `for` loop of `solveKeplerEquation`.  The fuel
argument is the remaining iteration budget (`i < 1000`); the loop state is
`(E1, E2, difE1E2)` and the loop runs while `difE1E2 > tolerance` with
`tolerance = 10e-6 = 1/100000`.  Note that the source never reassigns `E1`
inside the loop body. -/
def keplerLoop (L : MathLib F) (M e e1 : F) : Nat → F → F → F → F
  | 0, _, E2, _ => E2
  | n + 1, E1, E2, difE1E2 =>
    if difE1E2 > (1 / 100000 : F) then
      keplerLoop L M e e1 n E1 (E1 + keplerCorrection L M e e1 E1)
        |E1 - (E1 + keplerCorrection L M e e1 E1)|
    else E2

/-- Source line 93: the initial guess `E0 = M + e1*Math.sin(M*deg2rad)`
with `e1 = 180/Math.PI*e` (line 91). -/
def keplerInit (L : MathLib F) (M e : F) : F :=
  M + (180 / L.pi * e) * L.sin (M * deg2rad L)

/-- Source lines 90-108: `solveKeplerEquation(M, e)`.  Initial state of the
loop: `E1 = E0`, `E2 = 0`, `difE1E2 = 1` (lines 97-99); the loop cap is 1000
iterations and the final `E2` is returned (line 107). -/
def solveKeplerEquation (L : MathLib F) (M e : F) : F :=
  keplerLoop L M e (180 / L.pi * e) 1000 (keplerInit L M e) 0 1

/-- Modelled from the spec, section 4.2 (this loop exists nowhere in the
source; it is the iteration the spec describes): genuine Newton-Raphson in
which the iterate is updated each pass (`E <- E + dE`), stopping when
`|E_prev - E_new| <= 1/100000` or when the fuel (cap 1000) runs out. -/
def specKeplerLoop (L : MathLib F) (M e e1 : F) : Nat → F → F
  | 0, E1 => E1
  | n + 1, E1 =>
    if |E1 - (E1 + keplerCorrection L M e e1 E1)| ≤ (1 / 100000 : F) then
      E1 + keplerCorrection L M e e1 E1
    else specKeplerLoop L M e e1 n (E1 + keplerCorrection L M e e1 E1)

/-- Modelled from the spec, section 4.2: the solver as the spec words it,
with the same initial guess and the genuinely updated Newton iteration. -/
def specSolveKeplerEquation (L : MathLib F) (M e : F) : F :=
  specKeplerLoop L M e (180 / L.pi * e) 1000 (keplerInit L M e)

/-- Computable rational stand-in for the `Math` record, used to exhibit the
structural divergence between the source loop and the spec's loop on a
concrete run.  Its `pi` is 180, so `deg2rad = 1` and `e1 = e`. -/
def dummyML : MathLib ℚ where
  sin x := if x = 0 then 1 else if x = 1 then 2 else 2 + 1 / 100000
  cos _ := 0
  sqrt _ := 0
  pi := 180

noncomputable section

/-- Instantiation of the `Math` record with the exact real functions; the
analytic claims about the program are stated at this instantiation. -/
def realML : MathLib ℝ where
  sin := Real.sin
  cos := Real.cos
  sqrt := Real.sqrt
  pi := Real.pi

/-- One row of a Keplerian-element table.  The source stores a row as
`[name, col1 .. col16]`; the fields below are, in order, columns 1-16 with
the names the source's `let` bindings give them (lines 16-39): base values
`a0 e0 I0 L0 W0 O0` (columns 1-6), per-century rates `at' et It Lt Wt Ot`
(columns 7-12, `at` being a Lean keyword gets a prime), and the auxiliary
coefficients `b c s f` (columns 13-16). -/
structure OrbitalRow where
  name : String
  a0 : ℝ
  e0 : ℝ
  I0 : ℝ
  L0 : ℝ
  W0 : ℝ
  O0 : ℝ
  at' : ℝ
  et : ℝ
  It : ℝ
  Lt : ℝ
  Wt : ℝ
  Ot : ℝ
  b : ℝ
  c : ℝ
  s : ℝ
  f : ℝ

/-- Row used for an out-of-range index (the source would read `undefined`;
no claim exercises an invalid index). -/
def defaultRow : OrbitalRow :=
  ⟨"", 0, 0, 0, 0, 0, 0, 0, 0, 0, 0, 0, 0, 0, 0, 0, 0⟩

/-- Source lines 116-126: the table `keplerianElements2050`, valid for
1800 AD - 2050 AD. -/
def keplerianElements2050 : List OrbitalRow :=
  [⟨"Mercury", 0.38709927, 0.20563593, 7.00497902, 252.25032350, 77.45779628,
      48.33076593, 0.00000037, 0.00001906, -0.00594749, 149472.67411175,
      0.16047689, -0.12534081, 0, 0, 0, 0⟩,
   ⟨"Venus", 0.72333566, 0.00677672, 3.39467605, 181.97909950, 131.60246718,
      76.67984255, 0.00000390, -0.00004107, -0.00078890, 58517.81538729,
      0.00268329, -0.27769418, 0, 0, 0, 0⟩,
   ⟨"EM Bary", 1.00000261, 0.01671123, -0.00001531, 100.46457166, 102.93768193,
      0.0, 0.00000562, -0.00004392, -0.01294668, 35999.37244981,
      0.32327364, 0.0, 0, 0, 0, 0⟩,
   ⟨"Mars", 1.52371034, 0.09339410, 1.84969142, -4.55343205, -23.94362959,
      49.55953891, 0.00001847, -0.00007882, -0.00813131, 19140.30268499,
      0.44441088, -0.29257343, 0, 0, 0, 0⟩,
   ⟨"Jupiter", 5.20288700, 0.04838624, 1.30439695, 34.39644051, 14.72847983,
      100.47390909, -0.00011607, -0.00013253, -0.00183714, 3034.74612775,
      0.21252668, 0.20469106, 0, 0, 0, 0⟩,
   ⟨"Saturn", 9.53667594, 0.05386179, 2.48599187, 49.95424423, 92.59887831,
      113.66242448, -0.00125060, -0.00050991, 0.00193609, 1222.49362201,
      -0.41897216, -0.28867794, 0, 0, 0, 0⟩,
   ⟨"Uranus", 19.18916464, 0.04725744, 0.77263783, 313.23810451, 170.95427630,
      74.01692503, -0.00196176, -0.00004397, -0.00242939, 428.48202785,
      0.40805281, 0.04240589, 0, 0, 0, 0⟩,
   ⟨"Neptune", 30.06992276, 0.00859048, 1.77004347, -55.12002969, 44.96476227,
      131.78422574, 0.00026291, 0.00005105, 0.00035372, 218.45945325,
      -0.32241464, -0.00508664, 0, 0, 0, 0⟩,
   ⟨"Pluto", 39.48211675, 0.24882730, 17.14001206, 238.92903833, 224.06891629,
      110.30393684, -0.00031596, 0.00005170, 0.00004818, 145.20780515,
      -0.04062942, -0.01183482, 0, 0, 0, 0⟩]

/-- Truncation toward zero, as an integer: the rounding JavaScript's `%`
operator applies to the quotient. -/
def rtrunc (x : ℝ) : ℤ := if x < 0 then ⌈x⌉ else ⌊x⌋

/-- JavaScript's remainder operator `x % y` on numbers: the remainder of
truncated division, carrying the sign of the dividend. -/
def jsMod (x y : ℝ) : ℝ := x - y * (rtrunc (x / y) : ℝ)

/-- Source line 12: `Teph = UNIXMilliTime/1000/86400 + 2440587.5`, the
Julian Ephemeris Date. -/
def Teph (UNIXMilliTime : ℝ) : ℝ := UNIXMilliTime / 1000 / 86400 + 2440587.5

/-- Source line 13: `T = (Teph-2451545)/36525`, centuries past J2000.0. -/
def Tcent (UNIXMilliTime : ℝ) : ℝ := (Teph UNIXMilliTime - 2451545) / 36525

/-- The values the `let` bindings of `computeEclipticCoordinates` hold after
line 46: the six evaluated elements, the argument of perihelion `w`, the
mean anomaly before (`Mraw`) and after (`M`) the normalization of line 46. -/
structure EvaluatedElements where
  a : ℝ
  e : ℝ
  I : ℝ
  L : ℝ
  W : ℝ
  O : ℝ
  w : ℝ
  Mraw : ℝ
  M : ℝ

/-- Source lines 12-46 of `computeEclipticCoordinates`: evaluation of the
Keplerian elements of one row at one instant, including the argument of
perihelion (line 42), the mean anomaly (line 45) and its conditional
normalization `if(M < -180 || M > 180) M = M % 360` (line 46). -/
def evaluateElements (row : OrbitalRow) (UNIXMilliTime : ℝ) : EvaluatedElements :=
  let T := Tcent UNIXMilliTime
  let a := row.a0 + row.at' * T
  let e := row.e0 + row.et * T
  let I := row.I0 + row.It * T
  let L := row.L0 + row.Lt * T
  let W := row.W0 + row.Wt * T
  let O := row.O0 + row.Ot * T
  let w := W - O
  let Mraw := L - W + row.b * T ^ 2 + row.c * Real.cos (deg2rad realML * row.f * T)
      + row.s * Real.sin (deg2rad realML * row.f * T)
  let M := if Mraw < -180 ∨ Mraw > 180 then jsMod Mraw 360 else Mraw
  ⟨a, e, I, L, W, O, w, Mraw, M⟩

/-- Source lines 57-67: the rotation of the orbital-plane coordinates
`(x1, y1)` by the argument of perihelion `w`, the inclination `I` and the
longitude of the ascending node `O` into J2000 ecliptic coordinates. -/
def eclRotate (w O I x1 y1 : ℝ) : ℝ × ℝ × ℝ :=
  let cosw := Real.cos (deg2rad realML * w)
  let sinw := Real.sin (deg2rad realML * w)
  let cosO := Real.cos (deg2rad realML * O)
  let sinO := Real.sin (deg2rad realML * O)
  let cosI := Real.cos (deg2rad realML * I)
  let sinI := Real.sin (deg2rad realML * I)
  ((cosw * cosO - sinw * sinO * cosI) * x1 + (-sinw * cosO - cosw * sinO * cosI) * y1,
   (cosw * sinO + sinw * cosO * cosI) * x1 + (-sinw * sinO + cosw * cosO * cosI) * y1,
   (sinw * sinI) * x1 + (cosw * sinI) * y1)

/-- Source lines 10-73: `computeEclipticCoordinates(table, planetIndex,
UNIXMilliTime)`, returned as the triple `(Xecl, Yecl, Zecl)`. -/
def computeEclipticCoordinates (table : List OrbitalRow) (planetIndex : Nat)
    (UNIXMilliTime : ℝ) : ℝ × ℝ × ℝ :=
  let el := evaluateElements (table.getD planetIndex defaultRow) UNIXMilliTime
  let E := solveKeplerEquation realML el.M el.e
  let x1 := el.a * (Real.cos (deg2rad realML * E) - el.e)
  let y1 := el.a * Real.sqrt (1 - el.e * el.e) * Real.sin (deg2rad realML * E)
  eclRotate el.w el.O el.I x1 y1

/-- Source lines 75-88: `convertToICRF(EclipticCoordinates)`, the fixed
rotation by the obliquity constant `E = 23.43928` degrees. -/
def convertToICRF (p : ℝ × ℝ × ℝ) : ℝ × ℝ × ℝ :=
  let cosE := Real.cos (deg2rad realML * 23.43928)
  let sinE := Real.sin (deg2rad realML * 23.43928)
  (p.1, cosE * p.2.1 - sinE * p.2.2, sinE * p.2.1 + cosE * p.2.2)

/-- Spec formula (section 4.1): `JED = instant_ms/1000/86400 + 2440587.5`. -/
def specJED (instantMillis : ℝ) : ℝ := instantMillis / 1000 / 86400 + 2440587.5

/-- Spec formula (section 4.1): `T = (JED - 2451545) / 36525`. -/
def specCenturies (instantMillis : ℝ) : ℝ := (specJED instantMillis - 2451545) / 36525

/-- Spec formula (section 4.3, operation B): the fixed rotation about the
X axis by an angle `eps` (radians). -/
def specXRot (eps : ℝ) (p : ℝ × ℝ × ℝ) : ℝ × ℝ × ℝ :=
  (p.1,
   Real.cos eps * p.2.1 - Real.sin eps * p.2.2,
   Real.sin eps * p.2.1 + Real.cos eps * p.2.2)

/-- Auxiliary radian angle arising in the closed-form analysis of the solver
at `M = 90`, `e = 29/100`: the value returned by the solver, converted to
radians, equals `pi/2 + kepler90u`. -/
def kepler90u : ℝ :=
  29/100 * (29/100 * Real.sin (29/100) + Real.cos (29/100)) /
    (1 + 29/100 * Real.sin (29/100))

end

theorem keplerLoop_frozen (L : MathLib F) (M e e1 : F) (n : Nat) (E1 : F) :
    keplerLoop L M e e1 n E1 (E1 + keplerCorrection L M e e1 E1)
      |E1 - (E1 + keplerCorrection L M e e1 E1)| =
      E1 + keplerCorrection L M e e1 E1 := by
  induction n with
  | zero => rfl
  | succ n ih =>
    rw [keplerLoop]
    split
    · exact ih
    · rfl

theorem solveKeplerEquation_eq_onestep (L : MathLib F) (M e : F) :
    solveKeplerEquation L M e =
      keplerInit L M e +
        keplerCorrection L M e (180 / L.pi * e) (keplerInit L M e) := by
  have h1 : ((1 : F) / 100000) < 1 := by norm_num
  rw [solveKeplerEquation, keplerLoop, if_pos h1]
  exact keplerLoop_frozen L M e (180 / L.pi * e) 999 (keplerInit L M e)

/-- C10: for every M and every e, the value returned by `solveKeplerEquation`
equals exactly one Newton correction applied to the initial guess
`E0 = M + e1*sin(M*pi/180)` with `e1 = (180/pi)*e`: because the loop
variable `E1` is never reassigned, every iteration recomputes the identical
correction and the returned value is independent of how many of the
up-to-1000 iterations execute. -/
theorem kepler_single_correction (M e : ℝ) :
    solveKeplerEquation realML M e =
      (M + 180 / Real.pi * e * Real.sin (M * Real.pi / 180)) +
        (M - ((M + 180 / Real.pi * e * Real.sin (M * Real.pi / 180)) -
            180 / Real.pi * e *
              Real.sin ((M + 180 / Real.pi * e * Real.sin (M * Real.pi / 180)) *
                Real.pi / 180))) /
          (1 - e * Real.cos ((M + 180 / Real.pi * e * Real.sin (M * Real.pi / 180)) *
              Real.pi / 180)) := by
  rw [solveKeplerEquation_eq_onestep]
  simp only [keplerInit, keplerCorrection, deg2rad, realML]
  ring_nf

/-- C7: for eccentricity `e = 0` the solver returns `E = M` exactly, for
every mean anomaly M. -/
theorem kepler_circular_exact (M : ℝ) :
    solveKeplerEquation realML M 0 = M := by
  rw [solveKeplerEquation_eq_onestep]
  simp [keplerInit, keplerCorrection]

/-- C9: for 0 <= e < 1 the solver is total: the Newton-step denominator
`1 - e*cos(E)` is positive at every iterate (indeed at every angle), the
loop runs at most 1000 iterations, and the best available iterate (here:
the single computed correction) is returned unconditionally. -/
theorem kepler_solver_total (M e x : ℝ) (h0 : 0 ≤ e) (h1 : e < 1) :
    0 < 1 - e * Real.cos (deg2rad realML * x) ∧
      solveKeplerEquation realML M e =
        keplerInit realML M e +
          keplerCorrection realML M e (180 / Real.pi * e) (keplerInit realML M e) := by
  constructor
  · nlinarith [mul_le_mul_of_nonneg_left (Real.cos_le_one (deg2rad realML * x)) h0]
  · have h := solveKeplerEquation_eq_onestep realML M e
    simpa [realML] using h

theorem kepler_solver_total_witness :
    0 ≤ (1/2 : ℝ) ∧ (1/2 : ℝ) < 1 ∧
      (0 < 1 - (1/2 : ℝ) * Real.cos (deg2rad realML * 7) ∧
        solveKeplerEquation realML 3 (1/2) =
          keplerInit realML 3 (1/2) +
            keplerCorrection realML 3 (1/2) (180 / Real.pi * (1/2))
              (keplerInit realML 3 (1/2))) :=
  ⟨by norm_num, by norm_num, kepler_solver_total 3 (1/2) 7 (by norm_num) (by norm_num)⟩

/-- C2 is false of the source: the loop does not evaluate the correction at
successively updated iterates, because `E1` is never reassigned.  On a
concrete (computable) instantiation the source's solver and the spec's
genuinely-iterating Newton-Raphson return different values. -/
theorem kepler_iteration_frozen :
    solveKeplerEquation dummyML 0 1 ≠ specSolveKeplerEquation dummyML 0 1 := by
  have hcode : solveKeplerEquation dummyML 0 1 = 2 := by
    rw [solveKeplerEquation_eq_onestep]
    norm_num [keplerInit, keplerCorrection, dummyML, deg2rad]
  have hspec : specSolveKeplerEquation dummyML 0 1 = 2 + 1/100000 := by
    have he1 : (180 / dummyML.pi * 1 : ℚ) = 1 := by norm_num [dummyML]
    have hE0 : keplerInit dummyML 0 1 = 1 := by
      norm_num [keplerInit, dummyML, deg2rad]
    have hc1 : keplerCorrection dummyML 0 1 1 1 = 1 := by
      norm_num [keplerCorrection, dummyML, deg2rad]
    have hc2 : keplerCorrection dummyML 0 1 1 2 = 1/100000 := by
      norm_num [keplerCorrection, dummyML, deg2rad]
    rw [specSolveKeplerEquation, he1, hE0]
    rw [show (1000 : ℕ) = 999 + 1 from rfl, specKeplerLoop, hc1]
    rw [if_neg (by norm_num)]
    norm_num only
    rw [show (999 : ℕ) = 998 + 1 from rfl, specKeplerLoop, hc2]
    rw [if_pos (by rw [abs_sub_comm]; norm_num [abs_of_nonneg])]
    norm_num
  rw [hcode, hspec]
  norm_num

/-- C6: `convertToICRF` is exactly the fixed X-axis rotation by the
constant obliquity 23.43928 degrees; the angle is a literal in the function
body, not read from any table. -/
theorem convertToICRF_eq_xrot (p : ℝ × ℝ × ℝ) :
    convertToICRF p = specXRot (23.43928 * (Real.pi / 180)) p := by
  have h : deg2rad realML * 23.43928 = 23.43928 * (Real.pi / 180) := by
    simp [deg2rad, realML]
    ring
  simp only [convertToICRF, specXRot, h]

/-- C4: the element evaluator computes exactly the spec's formulas: the
Julian Ephemeris Date and centuries-past-J2000 conversions, `base + rate*T`
for each of the six primary elements, `w = W - O`, and the mean-anomaly
polynomial with its periodic correction. -/
theorem elements_follow_spec_formulas (row : OrbitalRow) (ms : ℝ) :
    Teph ms = specJED ms ∧
    Tcent ms = specCenturies ms ∧
    (evaluateElements row ms).a = row.a0 + row.at' * specCenturies ms ∧
    (evaluateElements row ms).e = row.e0 + row.et * specCenturies ms ∧
    (evaluateElements row ms).I = row.I0 + row.It * specCenturies ms ∧
    (evaluateElements row ms).L = row.L0 + row.Lt * specCenturies ms ∧
    (evaluateElements row ms).W = row.W0 + row.Wt * specCenturies ms ∧
    (evaluateElements row ms).O = row.O0 + row.Ot * specCenturies ms ∧
    (evaluateElements row ms).w =
      (row.W0 + row.Wt * specCenturies ms) - (row.O0 + row.Ot * specCenturies ms) ∧
    (evaluateElements row ms).Mraw =
      (row.L0 + row.Lt * specCenturies ms) - (row.W0 + row.Wt * specCenturies ms)
        + row.b * specCenturies ms ^ 2
        + row.c * Real.cos (row.f * specCenturies ms * (Real.pi / 180))
        + row.s * Real.sin (row.f * specCenturies ms * (Real.pi / 180)) := by
  have hT : specCenturies ms = Tcent ms := rfl
  have harg : deg2rad realML * row.f * Tcent ms =
      row.f * specCenturies ms * (Real.pi / 180) := by
    rw [hT]
    show Real.pi / 180 * row.f * Tcent ms = _
    ring
  refine ⟨rfl, rfl, rfl, rfl, rfl, rfl, rfl, rfl, rfl, ?_⟩
  show (row.L0 + row.Lt * Tcent ms) - (row.W0 + row.Wt * Tcent ms)
      + row.b * Tcent ms ^ 2
      + row.c * Real.cos (deg2rad realML * row.f * Tcent ms)
      + row.s * Real.sin (deg2rad realML * row.f * Tcent ms) = _
  rw [harg, hT]

/-- C5: the Earth-Moon barycenter row of the 1800-2050 table, evaluated at
the instant whose millisecond value corresponds to JED 2451545.0, gives
`T = 0`, every element equal to its base value, and raw mean anomaly
exactly `100.46457166 - 102.93768193 = -2.47311027` degrees. -/
theorem emBary_epoch_elements :
    Tcent 946728000000 = 0 ∧
    (evaluateElements (keplerianElements2050.getD 2 defaultRow) 946728000000).a
      = 1.00000261 ∧
    (evaluateElements (keplerianElements2050.getD 2 defaultRow) 946728000000).e
      = 0.01671123 ∧
    (evaluateElements (keplerianElements2050.getD 2 defaultRow) 946728000000).I
      = -0.00001531 ∧
    (evaluateElements (keplerianElements2050.getD 2 defaultRow) 946728000000).L
      = 100.46457166 ∧
    (evaluateElements (keplerianElements2050.getD 2 defaultRow) 946728000000).W
      = 102.93768193 ∧
    (evaluateElements (keplerianElements2050.getD 2 defaultRow) 946728000000).O
      = 0 ∧
    (evaluateElements (keplerianElements2050.getD 2 defaultRow) 946728000000).Mraw
      = -(2.47311027) := by
  have hT : Tcent 946728000000 = 0 := by norm_num [Tcent, Teph]
  have hrow : keplerianElements2050.getD 2 defaultRow =
      ⟨"EM Bary", 1.00000261, 0.01671123, -0.00001531, 100.46457166, 102.93768193,
        0.0, 0.00000562, -0.00004392, -0.01294668, 35999.37244981,
        0.32327364, 0.0, 0, 0, 0, 0⟩ := rfl
  refine ⟨hT, ?_, ?_, ?_, ?_, ?_, ?_, ?_⟩ <;>
    · simp only [evaluateElements, hrow, hT]
      norm_num

theorem jsMod_eq_self (x y : ℝ) (h0 : 0 ≤ x) (h1 : x < y) : jsMod x y = x := by
  have hy : 0 < y := lt_of_le_of_lt h0 h1
  have h2 : 0 ≤ x / y := div_nonneg h0 hy.le
  have h3 : x / y < 1 := (div_lt_one hy).mpr h1
  rw [jsMod, rtrunc, if_neg (not_lt.mpr h2),
    Int.floor_eq_zero_iff.mpr (Set.mem_Ico.mpr ⟨h2, h3⟩)]
  simp

theorem evaluateElements_M_eq (row : OrbitalRow) (ms : ℝ) :
    (evaluateElements row ms).M =
      if (evaluateElements row ms).Mraw < -180 ∨ (evaluateElements row ms).Mraw > 180
      then jsMod (evaluateElements row ms).Mraw 360
      else (evaluateElements row ms).Mraw := rfl

/-- C3 is false of the source: at the instant 947263680000 ms (about six
days past J2000.0) Mercury's raw mean anomaly is about 200.165 degrees -
outside [-180, 180] - and the normalization step `M % 360` leaves it
unchanged, still greater than 180.  (Values already inside the range are
indeed left untouched, but the normalized value of an outside raw M need
not land inside the range, contradicting both the claim and the source's
own comment on line 46.) -/
theorem meanAnomaly_norm_escapes :
    180 < (evaluateElements (keplerianElements2050.getD 0 defaultRow)
        947263680000).Mraw ∧
    180 < (evaluateElements (keplerianElements2050.getD 0 defaultRow)
        947263680000).M := by
  have hT : Tcent 947263680000 = 31 / 182625 := by
    norm_num [Tcent, Teph]
  have hrow : keplerianElements2050.getD 0 defaultRow =
      ⟨"Mercury", 0.38709927, 0.20563593, 7.00497902, 252.25032350, 77.45779628,
        48.33076593, 0.00000037, 0.00001906, -0.00594749, 149472.67411175,
        0.16047689, -0.12534081, 0, 0, 0, 0⟩ := rfl
  have hMraw : (evaluateElements (keplerianElements2050.getD 0 defaultRow)
      947263680000).Mraw = 304626110051943 / 1521875000000 := by
    simp only [evaluateElements, hrow, hT]
    norm_num
  have houts : (180 : ℝ) <
      (evaluateElements (keplerianElements2050.getD 0 defaultRow)
        947263680000).Mraw := by
    rw [hMraw]; norm_num
  refine ⟨houts, ?_⟩
  rw [evaluateElements_M_eq, if_pos (Or.inr houts), hMraw,
    jsMod_eq_self _ _ (by norm_num) (by norm_num)]
  norm_num

/-- C8: both frame transforms preserve Euclidean magnitude exactly: the
ecliptic rotation on an orbital-plane vector `(x1, y1, 0)` and the
obliquity rotation of `convertToICRF` on any 3-vector. -/
theorem rotations_preserve_magnitude (w O I x1 y1 X Y Z : ℝ) :
    Real.sqrt ((eclRotate w O I x1 y1).1 ^ 2 + (eclRotate w O I x1 y1).2.1 ^ 2 +
        (eclRotate w O I x1 y1).2.2 ^ 2) =
      Real.sqrt (x1 ^ 2 + y1 ^ 2 + 0 ^ 2) ∧
    Real.sqrt ((convertToICRF (X, Y, Z)).1 ^ 2 + (convertToICRF (X, Y, Z)).2.1 ^ 2 +
        (convertToICRF (X, Y, Z)).2.2 ^ 2) =
      Real.sqrt (X ^ 2 + Y ^ 2 + Z ^ 2) := by
  have hw := Real.sin_sq_add_cos_sq (deg2rad realML * w)
  have hO := Real.sin_sq_add_cos_sq (deg2rad realML * O)
  have hI := Real.sin_sq_add_cos_sq (deg2rad realML * I)
  have hE := Real.sin_sq_add_cos_sq (deg2rad realML * 23.43928)
  constructor
  · refine congrArg Real.sqrt ?_
    simp only [eclRotate]
    linear_combination (x1 ^ 2 + y1 ^ 2) * hw +
      (x1 ^ 2 * Real.sin (deg2rad realML * w) ^ 2 +
        2 * x1 * y1 * Real.sin (deg2rad realML * w) * Real.cos (deg2rad realML * w) +
        y1 ^ 2 * Real.cos (deg2rad realML * w) ^ 2) * hI +
      (x1 ^ 2 * (Real.cos (deg2rad realML * w) ^ 2 +
          Real.sin (deg2rad realML * w) ^ 2 * Real.cos (deg2rad realML * I) ^ 2) +
        2 * x1 * y1 * Real.sin (deg2rad realML * w) * Real.cos (deg2rad realML * w) *
          (Real.cos (deg2rad realML * I) ^ 2 - 1) +
        y1 ^ 2 * (Real.sin (deg2rad realML * w) ^ 2 +
          Real.cos (deg2rad realML * w) ^ 2 * Real.cos (deg2rad realML * I) ^ 2)) * hO
  · refine congrArg Real.sqrt ?_
    simp only [convertToICRF]
    linear_combination (Y ^ 2 + Z ^ 2) * hE

set_option maxHeartbeats 2000000 in
/-- C1 is false of the source: at `M = 90`, `e = 0.29` (inside the claimed
domain `M` in `[-180, 180]`, `e` in `[0, 0.3)`), the returned `E` leaves a
Kepler-equation residual of about `1e-3` degrees, far above the claimed
`1e-5`-degree tolerance: the loop's frozen iterate yields only a single
Newton correction, which has not yet converged at this input. -/
theorem kepler_roundtrip_violated :
    (1 / 100000 : ℝ) <
      |solveKeplerEquation realML 90 (29/100) -
        180 / Real.pi * (29/100) *
          Real.sin (solveKeplerEquation realML 90 (29/100) * Real.pi / 180) - 90| := by
  have hpi0 : Real.pi ≠ 0 := Real.pi_ne_zero
  have hpi3 : (3 : ℝ) < Real.pi := Real.pi_gt_three
  have hpiu : Real.pi < 3.141593 := Real.pi_lt_d6
  -- Taylor bounds for sine and cosine at the half angle 29/200
  have ha : |(29/200 : ℝ)| = 29/200 := abs_of_nonneg (by norm_num)
  have ha1 : |(29/200 : ℝ)| ≤ 1 := by rw [ha]; norm_num
  have hsb := abs_le.mp (Real.sin_bound ha1)
  have hcb := abs_le.mp (Real.cos_bound ha1)
  rw [ha] at hsb hcb
  have hs1 : (0.1444688 : ℝ) ≤ Real.sin (29/200) := by nlinarith [hsb.1]
  have hs2 : Real.sin (29/200) ≤ 0.1445150 := by nlinarith [hsb.2]
  have hc1 : (0.9894644 : ℝ) ≤ Real.cos (29/200) := by nlinarith [hcb.1]
  have hc2 : Real.cos (29/200) ≤ 0.9895106 := by nlinarith [hcb.2]
  -- double-angle step: bounds for sine and cosine at 29/100
  have hdbl : (29/100 : ℝ) = 2 * (29/200) := by norm_num
  have hsin29 : Real.sin (29/100) = 2 * Real.sin (29/200) * Real.cos (29/200) := by
    rw [hdbl, Real.sin_two_mul]
  have hcos29 : Real.cos (29/100) = 1 - 2 * Real.sin (29/200) ^ 2 := by
    rw [hdbl, Real.cos_two_mul']
    nlinarith [Real.sin_sq_add_cos_sq (29/200 : ℝ)]
  have hs_lo : (0.2858934 : ℝ) ≤ Real.sin (29/100) := by
    rw [hsin29]; nlinarith [hs1, hc1]
  have hs_hi : Real.sin (29/100) ≤ 0.2859983 := by
    rw [hsin29]; nlinarith [hs1, hs2, hc1, hc2]
  have hc_lo : (0.9582308 : ℝ) ≤ Real.cos (29/100) := by
    rw [hcos29]; nlinarith [hs1, hs2]
  have hc_hi : Real.cos (29/100) ≤ 0.9582576 := by
    rw [hcos29]; nlinarith [hs1, hs2]
  -- the solver's returned value in closed form
  have hE0 : keplerInit realML 90 (29/100) = 90 + 180 / Real.pi * (29/100) := by
    rw [keplerInit]
    simp only [realML, deg2rad]
    rw [show (90 : ℝ) * (Real.pi / 180) = Real.pi / 2 from by ring,
      Real.sin_pi_div_two, mul_one]
  have hdenom_pos : (0 : ℝ) < 1 + 29/100 * Real.sin (29/100) := by nlinarith [hs_lo]
  have hdenom_ne : (1 + 29/100 * Real.sin (29/100) : ℝ) ≠ 0 := ne_of_gt hdenom_pos
  have hargE0 : Real.pi / 180 * (90 + 180 / Real.pi * (29/100)) =
      Real.pi / 2 + 29/100 := by
    field_simp
    ring
  have hsinE0 : Real.sin (Real.pi / 180 * (90 + 180 / Real.pi * (29/100))) =
      Real.cos (29/100) := by
    rw [hargE0, add_comm, Real.sin_add_pi_div_two]
  have hcosE0 : Real.cos (Real.pi / 180 * (90 + 180 / Real.pi * (29/100))) =
      -Real.sin (29/100) := by
    rw [hargE0, add_comm, Real.cos_add_pi_div_two]
  have hcorr : keplerCorrection realML 90 (29/100) (180 / realML.pi * (29/100))
      (keplerInit realML 90 (29/100)) =
      180 / Real.pi * (29/100) * (Real.cos (29/100) - 1) /
        (1 + 29/100 * Real.sin (29/100)) := by
    rw [keplerCorrection, hE0]
    simp only [realML, deg2rad]
    rw [hsinE0, hcosE0]
    rw [show (1 - 29/100 * -Real.sin (29/100) : ℝ) = 1 + 29/100 * Real.sin (29/100)
      from by ring]
    congr 1
    ring
  have hR : solveKeplerEquation realML 90 (29/100) =
      90 + 180 / Real.pi * (29/100) +
        180 / Real.pi * (29/100) * (Real.cos (29/100) - 1) /
          (1 + 29/100 * Real.sin (29/100)) := by
    rw [solveKeplerEquation_eq_onestep, hcorr, hE0]
  -- the returned value in radians is pi/2 + kepler90u
  have hu : solveKeplerEquation realML 90 (29/100) * Real.pi / 180 =
      Real.pi / 2 + kepler90u := by
    rw [hR, kepler90u]
    field_simp
    ring
  have hsinR : Real.sin (solveKeplerEquation realML 90 (29/100) * Real.pi / 180) =
      Real.cos kepler90u := by
    rw [hu, add_comm, Real.sin_add_pi_div_two]
  -- rational bounds on kepler90u
  have hU_lo : (0.2788064 : ℝ) ≤ kepler90u := by
    rw [kepler90u, le_div_iff₀ hdenom_pos]
    nlinarith [hs_lo, hc_lo]
  have hU_hi : kepler90u ≤ 0.2788297 := by
    rw [kepler90u, div_le_iff₀ hdenom_pos]
    nlinarith [hs_hi, hc_hi]
  have hcosU_mono : Real.cos kepler90u ≤ Real.cos 0.2788064 :=
    Real.cos_le_cos_of_nonneg_of_le_pi (by norm_num) (by nlinarith [hU_hi, hpi3]) hU_lo
  -- Taylor bound for cosine at the rational point 0.2788064 = 2 * 0.1394032
  have hb : |(0.1394032 : ℝ)| = 0.1394032 := abs_of_nonneg (by norm_num)
  have hb1 : |(0.1394032 : ℝ)| ≤ 1 := by rw [hb]; norm_num
  have hsbb := abs_le.mp (Real.sin_bound hb1)
  rw [hb] at hsbb
  have hsinb_lo : (0.138932 : ℝ) ≤ Real.sin 0.1394032 := by nlinarith [hsbb.1]
  have hcosu1 : Real.cos 0.2788064 ≤ 0.9613958 := by
    rw [show (0.2788064 : ℝ) = 2 * 0.1394032 from by norm_num, Real.cos_two_mul']
    nlinarith [hsinb_lo, Real.sin_sq_add_cos_sq (0.1394032 : ℝ)]
  -- the residual, in radians divided by deg2rad, exceeds the tolerance
  have hq : Real.pi / 180 * (1/100000) < kepler90u - 29/100 * Real.cos kepler90u := by
    nlinarith [hU_lo, hcosU_mono, hcosu1, hpiu]
  have hexpr : solveKeplerEquation realML 90 (29/100) -
      180 / Real.pi * (29/100) *
        Real.sin (solveKeplerEquation realML 90 (29/100) * Real.pi / 180) - 90 =
      180 / Real.pi * (kepler90u - 29/100 * Real.cos kepler90u) := by
    rw [hsinR, hR, kepler90u]
    field_simp
    ring
  have hpos : (1/100000 : ℝ) < 180 / Real.pi *
      (kepler90u - 29/100 * Real.cos kepler90u) := by
    have h1 : (1/100000 : ℝ) = 180 / Real.pi * (Real.pi / 180 * (1/100000)) := by
      field_simp
    rw [h1]
    have h2 : (0 : ℝ) < 180 / Real.pi := by positivity
    exact mul_lt_mul_of_pos_left hq h2
  exact lt_of_lt_of_le (by rw [hexpr]; exact hpos) (le_abs_self _)
